import Mathlib

/-!
Verification of the gtk-rs interface-registration subsystem
(`src/glib/src/subclass/interface.rs`) and the generated `UnixMountPoint`
bindings (`src/gio/src/auto/unix_mount_point.rs`), as a shallow embedding.

The foreign GObject runtime is modelled explicitly: the process-wide type
registry is a value threaded through the operations, foreign calls become
functions on it, and side-effecting hooks (`type_init`, `interface_init`,
property installation, signal registration) are recorded as events in a
trace so that ordering and exactly-once claims can be stated.
-/

namespace GtkRs

/-- A GObject type identifier (`ffi::GType` / `glib::Type`). `G_TYPE_INVALID`
is the numeric value 0, so the model carries the raw numeric id. -/
structure GType where
  id : Nat
deriving DecidableEq, Repr

/-- The distinguished `Type::INVALID` sentinel (`G_TYPE_INVALID` = 0). -/
def GType.INVALID : GType := ⟨0⟩

/-- Embeds `glib::Type::is_valid`: a type id is valid iff it is not the
INVALID sentinel. -/
def GType.is_valid (t : GType) : Bool := t ≠ GType.INVALID

/-- A property specification (`glib::ParamSpec`), opaque to this layer apart
from its identity; the model keeps its name. -/
structure ParamSpec where
  name : String
deriving DecidableEq, Repr

/-- A signal description (`glib::subclass::Signal`), opaque to this layer
apart from its identity; the model keeps its name. -/
structure Signal where
  name : String
deriving DecidableEq, Repr

/-- An interface descriptor: the data a defining party supplies through the
`ObjectInterface` trait. `NAME`, the prerequisite type witnesses (each
witness contributes its `static_type()`), `properties()` and `signals()`.
`size` is `mem::size_of::<T>()` for the interface struct. The `type_init`
and `interface_init` hooks are side-effecting callbacks; their invocations
are recorded as trace events rather than stored here. -/
structure ObjectInterface where
  NAME : String
  Prerequisites : List GType
  properties : List ParamSpec
  signals : List Signal
  size : Nat
deriving Repr

/-! ### Prerequisite lists

`PrerequisiteList::types()` is implemented for tuples of arities 0 to 19:
`()` returns `vec![]`, `(T,)` returns a one-element vector, and the
macro-generated impls for arities 2..19 start from `Vec::new()` and push
each element's `static_type().to_glib()` in declaration order. -/

/-- Embeds the `prerequisite_list_trait_inner!` push loop: pushes each
remaining witness type onto the accumulated vector in declaration order. -/
def prerequisite_list_inner : List GType → List GType → List GType
  | types, [] => types
  | types, head :: rest => prerequisite_list_inner (types ++ [head]) rest

/-- Embeds `PrerequisiteList::types()` over the tuple of type witnesses:
the arity-0 impl returns the empty vector, the arity-1 impl returns the
singleton, and the generated impls for higher arities run the push loop
from an empty vector. -/
def PrerequisiteList.types : List GType → List GType
  | [] => []
  | [t] => [t]
  | ts => prerequisite_list_inner [] ts

/-! ### The foreign type registry -/

/-- The process-wide state owned by the foreign GObject runtime, as far as
this layer observes it: the registered (name, type) pairs, a source of
fresh type ids, and the attached interface prerequisites. -/
structure TypeRegistry where
  names : List (String × GType)
  next_id : Nat
  prereqs : List (GType × GType)
deriving DecidableEq, Repr

/-- The empty registry. -/
def TypeRegistry.empty : TypeRegistry := ⟨[], 0, []⟩

/-- Embeds `gobject_ffi::g_type_from_name`: the type registered under the
name, or `G_TYPE_INVALID` when the name is unknown. -/
def g_type_from_name (reg : TypeRegistry) (name : String) : GType :=
  match reg.names.find? (fun p => p.1 == name) with
  | some p => p.2
  | none => GType.INVALID

/-- Embeds `gobject_ffi::g_type_register_static_simple` for an
interface-kind type: the runtime mints a fresh, valid type id and records
the name. Fresh ids are `next_id + 1`, hence never 0 (never INVALID). -/
def g_type_register_static_simple (reg : TypeRegistry) (name : String) :
    GType × TypeRegistry :=
  let t : GType := ⟨reg.next_id + 1⟩
  (t, { reg with names := reg.names ++ [(name, t)], next_id := reg.next_id + 1 })

/-- Embeds `gobject_ffi::g_type_interface_add_prerequisite`: records the
prerequisite constraint in the registry. -/
def g_type_interface_add_prerequisite (reg : TypeRegistry) (t p : GType) :
    TypeRegistry :=
  { reg with prereqs := reg.prereqs ++ [(t, p)] }

/-- Embeds glib's `from_glib` conversion of a raw `ffi::GType` into the
typed `glib::Type` (a change of static type only; the id is unchanged). -/
def from_glib (t : GType) : GType := t

/-- A fatal assertion: a Rust `assert!`/`assert_eq!` failure, which aborts
the computation rather than returning. -/
inductive Panic where
  | assertion_failed (msg : String)
deriving DecidableEq, Repr

/-- The observable calls `register_interface` makes, in order: the
name-uniqueness check, the foreign type registration (with the struct
size), each prerequisite attachment, and the `type_init` hook invocation. -/
inductive RegEvent where
  | check_name (name : String)
  | register_static (name : String) (size : Nat)
  | add_prerequisite (t p : GType)
  | type_init (t : GType)
deriving DecidableEq, Repr

/-- Embeds the `for prerequisite in prerequisites` loop of
`register_interface`: attaches each prerequisite to the registry in order
and records one event per iteration. -/
def add_prerequisites (t : GType) :
    TypeRegistry → List GType → TypeRegistry × List RegEvent
  | reg, [] => (reg, [])
  | reg, p :: ps =>
      let reg' := g_type_interface_add_prerequisite reg t p
      let (reg'', evs) := add_prerequisites t reg' ps
      (reg'', RegEvent.add_prerequisite t p :: evs)

/-- Embeds `glib::subclass::register_interface::<T>()`. The source:
asserts `g_type_from_name(name) == G_TYPE_INVALID`; calls
`g_type_register_static_simple` with `Type::INTERFACE`, the name,
`mem::size_of::<T>()` and the `interface_init::<T>` trampoline; attaches
every prerequisite from `T::Prerequisites::types()`; converts the raw
result with `from_glib`; invokes `T::type_init` on the new type; returns
the type. A failed assertion aborts (`.error`). -/
def register_interface (T : ObjectInterface) (reg : TypeRegistry) :
    Except Panic (GType × TypeRegistry × List RegEvent) :=
  if g_type_from_name reg T.NAME = GType.INVALID then
    let ev0 := [RegEvent.check_name T.NAME]
    let rr := g_type_register_static_simple reg T.NAME
    let ev1 := [RegEvent.register_static T.NAME T.size]
    let prerequisites := PrerequisiteList.types T.Prerequisites
    let re := add_prerequisites rr.1 rr.2 prerequisites
    let type_ := from_glib rr.1
    let ev3 := [RegEvent.type_init type_]
    .ok (type_, re.1, ev0 ++ ev1 ++ re.2 ++ ev3)
  else
    .error (.assertion_failed "g_type_from_name(type_name) == G_TYPE_INVALID")

/-! ### The lazy one-shot `get_type` gate

The `object_interface_internal!` macro generates `get_type()` around a
`static ONCE: std::sync::Once` and a `static mut TYPE: Type = INVALID`:
the first call runs `register_interface::<Self>()` inside
`ONCE.call_once` and stores the result; every call then asserts
`TYPE.is_valid()` and returns `TYPE`. -/

/-- The per-descriptor static state of the generated `get_type`: whether
`ONCE` has completed and the cached `TYPE` cell (initially INVALID). -/
structure OnceState where
  once_done : Bool
  TYPE : GType
deriving DecidableEq, Repr

/-- The state of the statics before the first call: `ONCE` not yet run,
`TYPE = Type::INVALID`. -/
def OnceState.initial : OnceState := ⟨false, GType.INVALID⟩

/-- Embeds the generated `get_type()` as a sequential state transformer
over the statics and the foreign registry. When `ONCE` has completed the
`call_once` body is skipped; otherwise `register_interface` runs and its
result is stored into `TYPE`. Either way the function asserts
`TYPE.is_valid()` before returning it. The returned trace holds the
registration events this call performed ([] when the body was skipped). -/
def get_type (T : ObjectInterface) (st : OnceState) (reg : TypeRegistry) :
    Except Panic (GType × OnceState × TypeRegistry × List RegEvent) :=
  if st.once_done then
    if st.TYPE.is_valid then .ok (st.TYPE, st, reg, [])
    else .error (.assertion_failed "TYPE.is_valid()")
  else
    match register_interface T reg with
    | .error e => .error e
    | .ok (type_, reg', evs) =>
        let st' : OnceState := ⟨true, type_⟩
        if st'.TYPE.is_valid then .ok (st'.TYPE, st', reg', evs)
        else .error (.assertion_failed "TYPE.is_valid()")

/-! ### The `interface_init` trampoline -/

/-- The observable calls the `interface_init::<T>` trampoline makes, in
order: one property installation per declared `ParamSpec`
(`g_object_interface_install_property`), one signal registration per
declared `Signal` (`Signal::register`), and the invocation of the
descriptor's `interface_init` hook. -/
inductive IfaceEvent where
  | install_property (p : ParamSpec)
  | register_signal (s : Signal) (t : GType)
  | interface_init_hook
deriving DecidableEq, Repr

/-- Embeds the `for pspec in pspecs` loop of the trampoline: installs each
declared property in declaration order. -/
def install_property_loop : List ParamSpec → List IfaceEvent
  | [] => []
  | p :: ps => IfaceEvent.install_property p :: install_property_loop ps

/-- Embeds the `for signal in signals` loop of the trampoline: registers
each declared signal against the interface type in declaration order. -/
def register_signal_loop (type_ : GType) : List Signal → List IfaceEvent
  | [] => []
  | s :: ss => IfaceEvent.register_signal s type_ :: register_signal_loop type_ ss

/-- Embeds the `unsafe extern "C" fn interface_init::<T>` trampoline. The
source: iterates `T::properties()` installing each; reads
`type_ = T::get_type()` (by now the cached type); iterates `T::signals()`
registering each against `type_`; finally calls `iface.interface_init()`.
The model returns the trace of those calls; the `get_type` read uses the
same statics/registry state, and its panic (never reachable after a
completed registration) propagates. -/
def interface_init (T : ObjectInterface) (st : OnceState) (reg : TypeRegistry) :
    Except Panic (List IfaceEvent) :=
  let prop_evs := install_property_loop T.properties
  match get_type T st reg with
  | .error e => .error e
  | .ok (type_, _, _, _) =>
      .ok (prop_evs ++ register_signal_loop type_ T.signals ++
        [IfaceEvent.interface_init_hook])

/-! ### `from_instance` -/

/-- The foreign runtime's type checks as `from_instance` consults them:
`g_type_is_a` on type ids, and `g_type_interface_peek` from an object's
class to an interface's vtable pointer (0 models NULL; the class is
identified by the object's dynamic type). -/
structure ForeignRuntime where
  is_a : GType → GType → Bool
  interface_peek : GType → GType → Nat

/-- A foreign runtime is well formed when a type that is-a registered
interface has a non-null interface vtable to peek at — the guarantee
GObject itself provides for `g_type_interface_peek`. -/
def ForeignRuntime.wf (rt : ForeignRuntime) : Prop :=
  ∀ t i, rt.is_a t i = true → rt.interface_peek t i ≠ 0

/-- A live object handle; the model keeps its dynamic type
(`obj.as_ref().get_type()`). -/
structure ObjectHandle where
  dyn_type : GType
deriving DecidableEq, Repr

/-- Embeds `ObjectInterfaceExt::from_instance`. The source: asserts
`obj.get_type().is_a(Self::get_type())`; peeks the interface vtable from
the object's class; asserts the pointer is non-null; returns the borrowed
reference (modelled by the non-null pointer value). `iface_type` stands
for `Self::get_type()` of the already-registered interface. -/
def from_instance (rt : ForeignRuntime) (iface_type : GType)
    (obj : ObjectHandle) : Except Panic Nat :=
  if rt.is_a obj.dyn_type iface_type then
    let interface := rt.interface_peek obj.dyn_type iface_type
    if interface ≠ 0 then .ok interface
    else .error (.assertion_failed "!interface.is_null()")
  else .error (.assertion_failed "obj.get_type().is_a(Self::get_type())")

/-! ### `UnixMountPoint` (generated bindings) -/

/-- A wrapped `GUnixMountPoint`; opaque to the binding layer, which only
passes it back to foreign calls. The model keeps the underlying pointer
value (non-zero for a live boxed value). -/
structure UnixMountPoint where
  ptr : Nat
deriving DecidableEq, Repr

/-- Embeds Rust's `i32::cmp(&self, other)` (here against another i32):
`Less` when smaller, `Equal` when equal, `Greater` when larger. -/
def i32_cmp (a b : Int) : Ordering :=
  if a < b then .lt else if a = b then .eq else .gt

/-- Embeds Rust's `i32::partial_cmp`, which is total on integers: always
`Some` of the total comparison. -/
def i32_partial_cmp (a b : Int) : Option Ordering := some (i32_cmp a b)

/-- Embeds `PartialEq for UnixMountPoint`: `self.compare(other) == 0`.
`compare` is the foreign `g_unix_mount_point_compare`, passed as a
parameter since its behaviour lives in the wrapped C library. -/
def UnixMountPoint.eq_rs (compare : UnixMountPoint → UnixMountPoint → Int)
    (a b : UnixMountPoint) : Bool :=
  compare a b == 0

/-- Embeds `PartialOrd for UnixMountPoint`:
`self.compare(other).partial_cmp(&0)`. -/
def UnixMountPoint.partial_cmp_rs
    (compare : UnixMountPoint → UnixMountPoint → Int)
    (a b : UnixMountPoint) : Option Ordering :=
  i32_partial_cmp (compare a b) 0

/-- Embeds `Ord for UnixMountPoint`: `self.compare(other).cmp(&0)`. -/
def UnixMountPoint.cmp_rs (compare : UnixMountPoint → UnixMountPoint → Int)
    (a b : UnixMountPoint) : Ordering :=
  i32_cmp (compare a b) 0

/-- What one call to the foreign `g_unix_mount_point_at` produces: the
returned (possibly NULL, modelled by 0) `GUnixMountPoint` pointer and the
`guint64` it writes through the `time_read` out-parameter. -/
structure MountLookup where
  ret_ptr : Nat
  time_read : Nat
deriving DecidableEq, Repr

/-- Embeds `from_glib_full` on a nullable boxed pointer: NULL becomes
`None`, anything else becomes `Some` of the wrapped value. -/
def from_glib_full_opt (p : Nat) : Option UnixMountPoint :=
  if p = 0 then none else some ⟨p⟩

/-- Embeds `UnixMountPoint::at` (named `at` in the source; `at` is a Lean
keyword). The source: calls `g_unix_mount_point_at` with the path and an
uninitialized `time_read` slot, converts the returned pointer with
`from_glib_full` (an `Option` since the pointer is nullable), reads the
written `time_read`, and returns the pair. `foreign` is the wrapped C
call. -/
def UnixMountPoint.at_path (foreign : String → MountLookup)
    (mount_path : String) : Option UnixMountPoint × Nat :=
  let r := foreign mount_path
  (from_glib_full_opt r.ret_ptr, r.time_read)

/-! ### Helper lemmas -/

/-- The push loop appends the remaining witnesses to the accumulator in
declaration order. -/
theorem prerequisite_list_inner_eq (l acc : List GType) :
    prerequisite_list_inner acc l = acc ++ l := by
  induction l generalizing acc with
  | nil => simp [prerequisite_list_inner]
  | cons h t ih => simp [prerequisite_list_inner, ih]

/-- All the tuple impls of `PrerequisiteList::types()` agree: the produced
sequence is exactly the list of witness types in declaration order. -/
theorem PrerequisiteList.types_eq (l : List GType) :
    PrerequisiteList.types l = l := by
  match l with
  | [] => rfl
  | [t] => rfl
  | t₁ :: t₂ :: ts =>
    show prerequisite_list_inner [] (t₁ :: t₂ :: ts) = _
    rw [prerequisite_list_inner_eq]
    rfl

/-- The prerequisite loop records one `add_prerequisite` event per
prerequisite, in order. -/
theorem add_prerequisites_events (t : GType) (ps : List GType)
    (reg : TypeRegistry) :
    (add_prerequisites t reg ps).2 = ps.map (RegEvent.add_prerequisite t) := by
  induction ps generalizing reg with
  | nil => simp [add_prerequisites]
  | cons p ps ih => simp [add_prerequisites, ih]

/-- The property loop installs exactly the declared properties in
declaration order. -/
theorem install_property_loop_eq (ps : List ParamSpec) :
    install_property_loop ps = ps.map IfaceEvent.install_property := by
  induction ps with
  | nil => rfl
  | cons p ps ih => simp [install_property_loop, ih]

/-- The signal loop registers exactly the declared signals against the
interface type in declaration order. -/
theorem register_signal_loop_eq (t : GType) (ss : List Signal) :
    register_signal_loop t ss = ss.map (fun s => IfaceEvent.register_signal s t) := by
  induction ss with
  | nil => rfl
  | cons s ss ih => simp [register_signal_loop, ih]

/-- When the descriptor's name is fresh, `register_interface` succeeds and
returns the freshly minted type together with the full event trace. -/
theorem register_interface_of_fresh (T : ObjectInterface) (reg : TypeRegistry)
    (h : g_type_from_name reg T.NAME = GType.INVALID) :
    register_interface T reg =
      .ok (⟨reg.next_id + 1⟩,
        (add_prerequisites ⟨reg.next_id + 1⟩
          (g_type_register_static_simple reg T.NAME).2
          (PrerequisiteList.types T.Prerequisites)).1,
        RegEvent.check_name T.NAME ::
          RegEvent.register_static T.NAME T.size ::
          ((PrerequisiteList.types T.Prerequisites).map
              (RegEvent.add_prerequisite ⟨reg.next_id + 1⟩) ++
            [RegEvent.type_init ⟨reg.next_id + 1⟩])) := by
  simp [register_interface, h, from_glib, add_prerequisites_events,
    g_type_register_static_simple]

/-! ### Claim theorems -/

/-- Claim C4: prerequisite-list construction is total on witness tuples of
every supported arity 0..19: the empty tuple yields the empty sequence,
and a tuple of N types yields a sequence of length exactly N holding the
types' identifiers in declaration order. -/
theorem prerequisite_types_total (ws : List GType) (h : ws.length ≤ 19) :
    (PrerequisiteList.types ws).length = ws.length ∧
      PrerequisiteList.types ws = ws := by
  refine ⟨?_, PrerequisiteList.types_eq ws⟩
  rw [PrerequisiteList.types_eq ws]

/-- Witness for C4: the three-element list (A, B, C) of the spec's
example, well within the arity bound; the produced sequence has length 3
and is A, B, C in declaration order. -/
theorem prerequisite_types_total_witness :
    (PrerequisiteList.types [⟨3⟩, ⟨4⟩, ⟨5⟩]).length = 3 ∧
      PrerequisiteList.types [⟨3⟩, ⟨4⟩, ⟨5⟩] = [⟨3⟩, ⟨4⟩, ⟨5⟩] :=
  prerequisite_types_total [⟨3⟩, ⟨4⟩, ⟨5⟩] (by decide)

/-- Claim C2: registering a descriptor whose name is already present in
the foreign type registry terminates with a fatal assertion
(`assert_eq!(g_type_from_name(..), G_TYPE_INVALID)`) rather than
completing; in particular it never returns any type identifier, so it can
never return a second, different identifier for the name. -/
theorem register_interface_aborts_on_duplicate (T : ObjectInterface)
    (reg : TypeRegistry) (h : g_type_from_name reg T.NAME ≠ GType.INVALID) :
    register_interface T reg =
        .error (.assertion_failed
          "g_type_from_name(type_name) == G_TYPE_INVALID") ∧
      ∀ t reg' evs, register_interface T reg ≠ .ok (t, reg', evs) := by
  have he : register_interface T reg =
      .error (.assertion_failed
        "g_type_from_name(type_name) == G_TYPE_INVALID") := by
    simp [register_interface, h]
  refine ⟨he, fun t reg' evs hok => ?_⟩
  rw [he] at hok
  exact Except.noConfusion hok

/-- Witness for C2: a registry that already maps "Dup" to type 5; a
descriptor named "Dup" aborts. -/
theorem register_interface_aborts_on_duplicate_witness :
    register_interface ⟨"Dup", [], [], [], 8⟩ ⟨[("Dup", ⟨5⟩)], 5, []⟩ =
        .error (.assertion_failed
          "g_type_from_name(type_name) == G_TYPE_INVALID") ∧
      ∀ t reg' evs, register_interface ⟨"Dup", [], [], [], 8⟩
          ⟨[("Dup", ⟨5⟩)], 5, []⟩ ≠ .ok (t, reg', evs) :=
  register_interface_aborts_on_duplicate ⟨"Dup", [], [], [], 8⟩
    ⟨[("Dup", ⟨5⟩)], 5, []⟩ (by decide)

/-- Claim C6: a successful `register_interface` performs its steps in the
spec's order — name-uniqueness check, foreign registration of the new
interface-kind type sized to the descriptor's struct, attachment of every
prerequisite in order, conversion of the raw result into the typed
identifier, the `type_init` hook on the newly created type — and returns
that identifier. -/
theorem register_interface_step_order (T : ObjectInterface)
    (reg : TypeRegistry) (t : GType) (reg' : TypeRegistry)
    (evs : List RegEvent)
    (h : register_interface T reg = .ok (t, reg', evs)) :
    t = from_glib (g_type_register_static_simple reg T.NAME).1 ∧
      evs = RegEvent.check_name T.NAME ::
        RegEvent.register_static T.NAME T.size ::
        ((PrerequisiteList.types T.Prerequisites).map
            (RegEvent.add_prerequisite t) ++
          [RegEvent.type_init t]) := by
  by_cases hn : g_type_from_name reg T.NAME = GType.INVALID
  · rw [register_interface_of_fresh T reg hn] at h
    obtain ⟨ht, _, hevs⟩ := by simpa using h
    subst ht
    exact ⟨rfl, hevs.symm⟩
  · simp [register_interface, hn] at h

/-- Witness for C6: registering "Iface2" with two prerequisites on the
empty registry mints type 1 and produces the five-step trace. -/
theorem register_interface_step_order_witness :
    (⟨1⟩ : GType) =
        from_glib (g_type_register_static_simple TypeRegistry.empty "Iface2").1 ∧
      [RegEvent.check_name "Iface2", RegEvent.register_static "Iface2" 32,
          RegEvent.add_prerequisite ⟨1⟩ ⟨3⟩, RegEvent.add_prerequisite ⟨1⟩ ⟨4⟩,
          RegEvent.type_init ⟨1⟩] =
        RegEvent.check_name "Iface2" ::
          RegEvent.register_static "Iface2" 32 ::
          ((PrerequisiteList.types [⟨3⟩, ⟨4⟩]).map
              (RegEvent.add_prerequisite ⟨1⟩) ++
            [RegEvent.type_init ⟨1⟩]) :=
  register_interface_step_order ⟨"Iface2", [⟨3⟩, ⟨4⟩], [], [], 32⟩
    TypeRegistry.empty ⟨1⟩
    ⟨[("Iface2", ⟨1⟩)], 1, [(⟨1⟩, ⟨3⟩), (⟨1⟩, ⟨4⟩)]⟩
    [RegEvent.check_name "Iface2", RegEvent.register_static "Iface2" 32,
      RegEvent.add_prerequisite ⟨1⟩ ⟨3⟩, RegEvent.add_prerequisite ⟨1⟩ ⟨4⟩,
      RegEvent.type_init ⟨1⟩]
    (by rfl)

/-- Claim C7: for every valid descriptor (fresh name, 0 to 19
prerequisites), the generated `get_type` never returns the INVALID
sentinel: the first call succeeds (so the `assert!(TYPE.is_valid())`
guarding the return does not fire) and the returned identifier is
valid. -/
theorem get_type_never_invalid (T : ObjectInterface) (reg : TypeRegistry)
    (hname : g_type_from_name reg T.NAME = GType.INVALID)
    (hlen : T.Prerequisites.length ≤ 19) :
    ∃ st' reg' evs,
      get_type T OnceState.initial reg = .ok (⟨reg.next_id + 1⟩, st', reg', evs) ∧
        (GType.mk (reg.next_id + 1)).is_valid = true := by
  refine ⟨⟨true, ⟨reg.next_id + 1⟩⟩,
    (add_prerequisites ⟨reg.next_id + 1⟩
      (g_type_register_static_simple reg T.NAME).2
      (PrerequisiteList.types T.Prerequisites)).1,
    RegEvent.check_name T.NAME ::
      RegEvent.register_static T.NAME T.size ::
      ((PrerequisiteList.types T.Prerequisites).map
          (RegEvent.add_prerequisite ⟨reg.next_id + 1⟩) ++
        [RegEvent.type_init ⟨reg.next_id + 1⟩]), ?_, ?_⟩
  · simp [get_type, OnceState.initial, register_interface_of_fresh T reg hname,
      GType.is_valid, GType.INVALID]
  · simp [GType.is_valid, GType.INVALID]

/-- Witness for C7: a descriptor "Valid1" with one prerequisite on the
empty registry; `get_type` returns type 1, which is valid. -/
theorem get_type_never_invalid_witness :
    ∃ st' reg' evs,
      get_type ⟨"Valid1", [⟨2⟩], [], [], 8⟩ OnceState.initial
          TypeRegistry.empty = .ok (⟨TypeRegistry.empty.next_id + 1⟩, st', reg', evs) ∧
        (GType.mk (TypeRegistry.empty.next_id + 1)).is_valid = true :=
  get_type_never_invalid ⟨"Valid1", [⟨2⟩], [], [], 8⟩ TypeRegistry.empty
    (by decide) (by decide)

/-- Claim C1: once a first `get_type` call has succeeded, every subsequent
call returns the identical type identifier, leaves the statics and the
registry untouched, and performs no registration step at all (empty event
trace: no foreign registration and no `type_init`; the `interface_init`
trampoline is only ever invoked by the foreign runtime, never by
`get_type`). -/
theorem get_type_cached_after_success (T : ObjectInterface)
    (st : OnceState) (reg : TypeRegistry) (t : GType) (st' : OnceState)
    (reg' : TypeRegistry) (evs : List RegEvent)
    (h : get_type T st reg = .ok (t, st', reg', evs)) :
    get_type T st' reg' = .ok (t, st', reg', []) := by
  unfold get_type at h
  by_cases hd : st.once_done
  · rw [if_pos hd] at h
    by_cases hv : st.TYPE.is_valid
    · rw [if_pos hv] at h
      obtain ⟨ht, hst, hreg, _⟩ := by simpa using h
      subst ht hst hreg
      simp [get_type, hd, hv]
    · rw [if_neg hv] at h
      exact Except.noConfusion h
  · rw [if_neg hd] at h
    cases hr : register_interface T reg with
    | error e => rw [hr] at h; exact Except.noConfusion h
    | ok res =>
      obtain ⟨ty, regr, evsr⟩ := res
      rw [hr] at h
      simp only at h
      by_cases hv : (GType.is_valid ty)
      · rw [if_pos hv] at h
        obtain ⟨ht, hst, hreg, _⟩ := by simpa using h
        subst hst hreg
        subst ht
        simp [get_type, hv]
      · rw [if_neg hv] at h
        exact Except.noConfusion h

/-- Witness for C1: the first call on "ExampleIface" over the empty
registry registers type 1; the theorem then gives that a second call
returns the same type 1 with an empty trace. -/
theorem get_type_cached_after_success_witness :
    get_type ⟨"ExampleIface", [], [], [], 16⟩ ⟨true, ⟨1⟩⟩
        ⟨[("ExampleIface", ⟨1⟩)], 1, []⟩ =
      .ok (⟨1⟩, ⟨true, ⟨1⟩⟩, ⟨[("ExampleIface", ⟨1⟩)], 1, []⟩, []) :=
  get_type_cached_after_success ⟨"ExampleIface", [], [], [], 16⟩
    OnceState.initial TypeRegistry.empty ⟨1⟩ ⟨true, ⟨1⟩⟩
    ⟨[("ExampleIface", ⟨1⟩)], 1, []⟩
    [RegEvent.check_name "ExampleIface",
      RegEvent.register_static "ExampleIface" 16, RegEvent.type_init ⟨1⟩]
    (by rfl)

/-- Claim C3: the `interface_init` trampoline performs its three phases in
this exact order: every declared property is installed in declaration
order, then every declared signal is registered against the interface's
type identifier in declaration order, and only after both does the
descriptor's `interface_init` hook run (exactly once, as the final
event). -/
theorem interface_init_phase_order (T : ObjectInterface) (st : OnceState)
    (reg : TypeRegistry) (t : GType) (st' : OnceState) (reg' : TypeRegistry)
    (tr : List RegEvent) (h : get_type T st reg = .ok (t, st', reg', tr)) :
    interface_init T st reg =
      .ok (T.properties.map IfaceEvent.install_property ++
        T.signals.map (fun s => IfaceEvent.register_signal s t) ++
        [IfaceEvent.interface_init_hook]) := by
  simp [interface_init, h, install_property_loop_eq, register_signal_loop_eq]

/-- Witness for C3: the spec's "Drawable" example — one property "color",
one signal "redraw", interface type 7 already registered; the trace is
install-color, register-redraw, then the hook. -/
theorem interface_init_phase_order_witness :
    interface_init ⟨"Drawable", [], [⟨"color"⟩], [⟨"redraw"⟩], 24⟩
        ⟨true, ⟨7⟩⟩ ⟨[("Drawable", ⟨7⟩)], 7, []⟩ =
      .ok ([⟨"color"⟩].map IfaceEvent.install_property ++
        [⟨"redraw"⟩].map (fun s => IfaceEvent.register_signal s ⟨7⟩) ++
        [IfaceEvent.interface_init_hook]) :=
  interface_init_phase_order ⟨"Drawable", [], [⟨"color"⟩], [⟨"redraw"⟩], 24⟩
    ⟨true, ⟨7⟩⟩ ⟨[("Drawable", ⟨7⟩)], 7, []⟩ ⟨7⟩ ⟨true, ⟨7⟩⟩
    ⟨[("Drawable", ⟨7⟩)], 7, []⟩ [] (by rfl)

/-- Claim C5: `from_instance` checks that the object's dynamic type is-a
the interface's type. On violation it aborts with a fatal assertion (never
returning a null or empty result); when the check holds — under the
foreign runtime's guarantee that an implementing type has a non-null
interface vtable — it returns that non-null reference. -/
theorem from_instance_contract (rt : ForeignRuntime) (iface_type : GType)
    (obj : ObjectHandle) (hwf : rt.wf) :
    (rt.is_a obj.dyn_type iface_type = false →
      from_instance rt iface_type obj =
        .error (.assertion_failed "obj.get_type().is_a(Self::get_type())")) ∧
    (rt.is_a obj.dyn_type iface_type = true →
      from_instance rt iface_type obj =
          .ok (rt.interface_peek obj.dyn_type iface_type) ∧
        rt.interface_peek obj.dyn_type iface_type ≠ 0) := by
  constructor
  · intro hno
    simp [from_instance, hno]
  · intro hyes
    have hnn := hwf obj.dyn_type iface_type hyes
    exact ⟨by simp [from_instance, hyes, hnn], hnn⟩

/-- An example foreign runtime for the C5 witness: type 2 implements
interface 1 with a vtable at address 5; nothing else is-a anything. -/
def rt_example : ForeignRuntime where
  is_a := fun t i => t.id == 2 && i.id == 1
  interface_peek := fun t i => if t.id == 2 && i.id == 1 then 5 else 0

/-- The example runtime is well formed: whenever is-a holds, the peeked
vtable is non-null. -/
theorem rt_example_wf : rt_example.wf := by
  intro t i h
  simp [rt_example] at h ⊢
  simp [h]

/-- Witness for C5: an object of type 2 queried for interface 1 on the
example runtime yields the non-null reference 5. -/
theorem from_instance_contract_witness :
    from_instance rt_example ⟨1⟩ ⟨⟨2⟩⟩ =
        .ok (rt_example.interface_peek ⟨2⟩ ⟨1⟩) ∧
      rt_example.interface_peek ⟨2⟩ ⟨1⟩ ≠ 0 :=
  (from_instance_contract rt_example ⟨1⟩ ⟨⟨2⟩⟩ rt_example_wf).2 (by decide)

/-- Claim C9: the derived comparisons on `UnixMountPoint` are mutually
consistent and total, whatever the foreign `compare` does:
`partial_cmp` is always `Some` of exactly the ordering `cmp` returns, and
`==` holds exactly when `cmp` is `Equal` — all three being derived by
comparing the one foreign `compare` result against zero. -/
theorem unix_mount_point_ord_consistent
    (compare : UnixMountPoint → UnixMountPoint → Int) (a b : UnixMountPoint) :
    UnixMountPoint.partial_cmp_rs compare a b =
        some (UnixMountPoint.cmp_rs compare a b) ∧
      (UnixMountPoint.eq_rs compare a b = true ↔
        UnixMountPoint.cmp_rs compare a b = .eq) := by
  constructor
  · rfl
  · simp only [UnixMountPoint.eq_rs, UnixMountPoint.cmp_rs, i32_cmp,
      beq_iff_eq]
    constructor
    · intro h0
      simp [h0]
    · intro h
      by_cases hlt : compare a b < 0
      · rw [if_pos hlt] at h; exact absurd h (by simp)
      · rw [if_neg hlt] at h
        by_cases heq : compare a b = 0
        · exact heq
        · rw [if_neg heq] at h; exact absurd h (by simp)

/-- Claim C10: `UnixMountPoint::at` is total and never panics on a path
with no mount point: for every foreign behaviour and every path it returns
the pair of an `Option` (`None` exactly when the foreign lookup returned
NULL, `Some` of the wrapped point otherwise) and the timestamp the foreign
call wrote. -/
theorem unix_mount_point_at_total (foreign : String → MountLookup)
    (mount_path : String) :
    ((UnixMountPoint.at_path foreign mount_path).1 = none ↔
        (foreign mount_path).ret_ptr = 0) ∧
      (∀ h : (foreign mount_path).ret_ptr ≠ 0,
        (UnixMountPoint.at_path foreign mount_path).1 =
          some ⟨(foreign mount_path).ret_ptr⟩) ∧
      (UnixMountPoint.at_path foreign mount_path).2 =
        (foreign mount_path).time_read := by
  refine ⟨?_, ?_, rfl⟩
  · simp [UnixMountPoint.at_path, from_glib_full_opt]
  · intro h
    simp [UnixMountPoint.at_path, from_glib_full_opt, h]

end GtkRs
